import Mathlib

/-!
Verification of the file_transfer repository core.

Shallow embedding of the wire codec (src/src/common/protocol.c), the
protocol engine (src/Ai_generated/src/common/network.c), the filesystem
helpers (src/Ai_generated/src/common/fileio.c), the sender state machine
(src/src/client/client_main.c, send_file) and the receiver state machine
(src/src/server/server_main.c, receive_file).

Bytes are modelled as natural numbers below 256; buffers as lists of
bytes; C unsigned arithmetic as Nat with explicit reduction modulo
2 to the width where overflow matters.  Socket and filesystem effects
are modelled by explicit oracle inputs and by event traces returned
alongside each function result.
-/


/-! ## Protocol constants (src/Ai_generated/src/common/protocol.h) -/

def FT_PROTOCOL_VERSION : Nat := 0x01

def FT_MAGIC_NUMBER : Nat := 0x46544350

def FT_DEFAULT_CHUNK_SIZE : Nat := 524288

def FT_MAX_FILENAME_LEN : Nat := 256

def FT_MAX_RETRIES : Nat := 3

def FT_HEADER_SIZE : Nat := 32

def FT_FILE_INFO_SIZE : Nat := 1024

def FT_CHUNK_HEADER_SIZE : Nat := 24

def MSG_HANDSHAKE_REQ : Nat := 0x01

def MSG_HANDSHAKE_ACK : Nat := 0x02

def MSG_FILE_INFO : Nat := 0x03

def MSG_FILE_ACK : Nat := 0x04

def MSG_CHUNK_DATA : Nat := 0x05

def MSG_CHUNK_ACK : Nat := 0x06

def MSG_TRANSFER_COMPLETE : Nat := 0x07

def MSG_VERIFY_REQUEST : Nat := 0x08

def MSG_VERIFY_RESPONSE : Nat := 0x09

def MSG_ERROR : Nat := 0xFF

/-- Error codes, FTErrorCode enum (C ints). -/
def FT_SUCCESS : Int := 0

def FT_ERR_SEND : Int := -6

def FT_ERR_RECV : Int := -7

def FT_ERR_TIMEOUT : Int := -8

def FT_ERR_FILE_OPEN : Int := -10

def FT_ERR_FILE_READ : Int := -11

def FT_ERR_FILE_WRITE : Int := -12

def FT_ERR_FILE_SEEK : Int := -13

def FT_ERR_DISK_FULL : Int := -14

def FT_ERR_CHECKSUM : Int := -20

def FT_ERR_PROTOCOL : Int := -21

def FT_ERR_VERSION : Int := -22

def FT_ERR_INVALID_MSG : Int := -23

def FT_ERR_OUT_OF_MEMORY : Int := -30

def FT_ERR_INVALID_ARG : Int := -31

/-! ## Byte primitives: big-endian encoding and CRC-32 -/

/-- Big-endian byte encoding of the low n bytes of a natural number.
Models writing an unsigned integer to the wire with htons, htonl and
htonll from src/src/common/platform.h (the wire order is big-endian). -/
def beBytes : Nat → Nat → List Nat
  | 0, _ => []
  | n + 1, x => beBytes n (x / 256) ++ [x % 256]

/-- Big-endian value of a byte list; models ntohs, ntohl, ntohll reads. -/
def fromBE (l : List Nat) : Nat := l.foldl (fun a b => a * 256 + b) 0

/-- Read an unsigned big-endian field of the given byte length at the
given byte offset of a buffer. -/
def rdBE (b : List Nat) (off len : Nat) : Nat := fromBE ((b.drop off).take len)

/-- One step of the reflected CRC-32 bit loop (polynomial 0xEDB88320). -/
def crc32Bit (c : Nat) : Nat :=
  if c % 2 = 1 then (c / 2) ^^^ 0xEDB88320 else c / 2

/-- Iterate the CRC-32 bit step. -/
def crc32Bits : Nat → Nat → Nat
  | 0, c => c
  | n + 1, c => crc32Bits n (crc32Bit c)

/-- Fold one data byte into the running CRC-32 state. -/
def crc32Byte (c b : Nat) : Nat := crc32Bits 8 (c ^^^ b % 256)

/-- Modelled from the spec: crc32_compute is declared in
src/Ai_generated/src/common/checksum.h and called throughout the code,
but checksum.c is not part of the repository sources.  The spec fixes
it as the IEEE 802.3 CRC-32 over a byte range; this is that function in
its standard reflected form (initial value 0xFFFFFFFF, reflected
polynomial 0xEDB88320, final complement). -/
def crc32_compute (data : List Nat) : Nat :=
  (data.foldl crc32Byte 0xFFFFFFFF) ^^^ 0xFFFFFFFF

/-! ## Frame codec (src/src/common/protocol.c) -/

/-- MessageHeader struct (protocol.h); field widths are u32, u8, u8,
u16, u64, u64, u32, u32. -/
structure MessageHeader where
  magic : Nat
  version : Nat
  msg_type : Nat
  flags : Nat
  sequence_num : Nat
  payload_size : Nat
  checksum : Nat
  reserved : Nat
  deriving Repr, DecidableEq

/-- protocol_serialize_header, protocol.c lines 22-39: fill offsets
0..23, compute CRC-32 over those 24 bytes, store it big-endian at
offset 24, then the reserved word at offset 28.  The checksum field of
the input struct is not consulted. -/
def protocol_serialize_header (h : MessageHeader) : List Nat :=
  let pre24 : List Nat :=
    beBytes 4 h.magic ++ beBytes 1 h.version ++ beBytes 1 h.msg_type ++
    beBytes 2 h.flags ++ beBytes 8 h.sequence_num ++ beBytes 8 h.payload_size
  pre24 ++ beBytes 4 (crc32_compute pre24) ++ beBytes 4 h.reserved

/-- protocol_deserialize_header, protocol.c lines 42-57: read every
field back from its fixed offset. -/
def protocol_deserialize_header (b : List Nat) : MessageHeader where
  magic := rdBE b 0 4
  version := rdBE b 4 1
  msg_type := rdBE b 5 1
  flags := rdBE b 6 2
  sequence_num := rdBE b 8 8
  payload_size := rdBE b 16 8
  checksum := rdBE b 24 4
  reserved := rdBE b 28 4

/-- protocol_validate_header, protocol.c lines 60-78: check magic,
version, and that msg_type is a declared message type; the header CRC
is not checked here. -/
def protocol_validate_header (h : MessageHeader) : Int :=
  if h.magic ≠ FT_MAGIC_NUMBER then FT_ERR_PROTOCOL
  else if h.version ≠ FT_PROTOCOL_VERSION then FT_ERR_VERSION
  else if h.msg_type < MSG_HANDSHAKE_REQ ∨
      (h.msg_type > MSG_VERIFY_RESPONSE ∧ h.msg_type ≠ MSG_ERROR) then
    FT_ERR_INVALID_MSG
  else FT_SUCCESS

/-- ChunkHeader struct (protocol.h): u64 chunk_id, u64 chunk_offset,
u32 chunk_size, u32 chunk_crc32. -/
structure ChunkHeader where
  chunk_id : Nat
  chunk_offset : Nat
  chunk_size : Nat
  chunk_crc32 : Nat
  deriving Repr, DecidableEq

/-- protocol_serialize_chunk_header, protocol.c lines 192-208. -/
def protocol_serialize_chunk_header (ch : ChunkHeader) : List Nat :=
  beBytes 8 ch.chunk_id ++ beBytes 8 ch.chunk_offset ++
  beBytes 4 ch.chunk_size ++ beBytes 4 ch.chunk_crc32

/-- protocol_deserialize_chunk_header, protocol.c lines 211-229. -/
def protocol_deserialize_chunk_header (b : List Nat) : ChunkHeader where
  chunk_id := rdBE b 0 8
  chunk_offset := rdBE b 8 8
  chunk_size := rdBE b 16 4
  chunk_crc32 := rdBE b 20 4

/-- FileInfo struct (protocol.h) as deserialized on the receiver. -/
structure FileInfo where
  filename_len : Nat
  filename : List Nat
  file_size : Nat
  total_chunks : Nat
  chunk_size : Nat
  checksum_type : Nat
  file_checksum : List Nat
  file_mode : Nat
  timestamp : Nat
  deriving Repr, DecidableEq

/-- protocol_deserialize_file_info, protocol.c lines 139-189: read each
field at its running offset; the 256 filename bytes are copied and then
byte 255 is forced to zero to guarantee null termination. -/
def protocol_deserialize_file_info (b : List Nat) : FileInfo where
  filename_len := rdBE b 0 2
  filename := ((b.drop 2).take FT_MAX_FILENAME_LEN).set (FT_MAX_FILENAME_LEN - 1) 0
  file_size := rdBE b 258 8
  total_chunks := rdBE b 266 8
  chunk_size := rdBE b 274 4
  checksum_type := rdBE b 278 1
  file_checksum := (b.drop 279).take 32
  file_mode := rdBE b 311 4
  timestamp := rdBE b 315 8

/-- The serialized header as a right-nested concatenation of its eight
big-endian fields. -/
def hdrLayout (m v t f s p c r : Nat) : List Nat :=
  beBytes 4 m ++ (beBytes 1 v ++ (beBytes 1 t ++ (beBytes 2 f ++
    (beBytes 8 s ++ (beBytes 8 p ++ (beBytes 4 c ++ beBytes 4 r))))))

/-- Concrete header used in witnesses and counterexamples. -/
def hdrW : MessageHeader :=
  { magic := 0x46544350, version := 1, msg_type := 1, flags := 0,
    sequence_num := 0, payload_size := 0, checksum := 0, reserved := 0 }

/-- Headers used as concrete inputs for the C9 witness. -/
def hdrBadMagic : MessageHeader :=
  { hdrW with magic := 0xDEADBEEF }

def hdrBadVersion : MessageHeader :=
  { hdrW with version := 2 }

def hdrBadType : MessageHeader :=
  { hdrW with msg_type := 0 }

/-! ## C4: recv_message header handling -/

/-- recv_message (src/Ai_generated/src/common/network.c lines 225-262),
restricted to its header-processing decisions: deserialize the 32
received header bytes, validate them (magic, version, msg_type only),
then, if a payload is announced, reject it when it exceeds the caller
maximum and otherwise plan to read exactly payload_size bytes.  The
result carries the number of payload bytes that will be read from the
connection. -/
def recv_message_plan (hdrBuf : List Nat) (maxPayload : Nat) :
    Except Int (MessageHeader × Nat) :=
  let h := protocol_deserialize_header hdrBuf
  let v := protocol_validate_header h
  if v ≠ FT_SUCCESS then .error v
  else if h.payload_size > 0 then
    if h.payload_size > maxPayload then .error FT_ERR_PROTOCOL
    else .ok (h, h.payload_size)
  else .ok (h, 0)

/-- Projection of a recv_message plan to the planned payload read
length. -/
def planLen : Except Int (MessageHeader × Nat) → Option Nat
  | .ok (_, n) => some n
  | .error _ => none

/-- A serialized header for payload_size 100 whose payload_size field
is then overwritten in transit with 50, leaving the stored header CRC
stale. -/
def corruptBuf : List Nat :=
  let b := protocol_serialize_header { hdrW with payload_size := 100 }
  b.take 16 ++ beBytes 8 50 ++ b.drop 24

/-! ## Filename sanitization (src/Ai_generated/src/common/fileio.c) -/

/-- Character class admitted by file_sanitize_filename (fileio.c lines
244-245): ASCII letters, digits, dash, underscore, dot. -/
def isAllowedChar (c : Nat) : Bool :=
  (97 ≤ c && c ≤ 122) || (65 ≤ c && c ≤ 90) || (48 ≤ c && c ≤ 57) ||
  c == 45 || c == 95 || c == 46

/-- The strstr(filename, "..") check of fileio.c line 227: does the
byte list contain two consecutive dot bytes. -/
def hasDotDot : List Nat → Bool
  | a :: b :: rest => (a == 46 && b == 46) || hasDotDot (b :: rest)
  | _ => false

/-- The copy loop of file_sanitize_filename (fileio.c lines 240-252):
allowed characters are kept, path separators become underscores, other
characters are dropped; at most size-1 output characters are produced
(the capacity argument here is size-1). -/
def sanitizeCopy : List Nat → Nat → List Nat
  | [], _ => []
  | _ :: _, 0 => []
  | c :: rest, cap + 1 =>
    if isAllowedChar c then c :: sanitizeCopy rest cap
    else if c == 47 || c == 92 then 95 :: sanitizeCopy rest cap
    else sanitizeCopy rest (cap + 1)

/-- file_sanitize_filename, fileio.c lines 221-260.  The filename is
the byte content of the C string (up to its terminator).  Checks in
source order: empty capacity, a ".." substring, a leading slash or
backslash, an uppercase drive prefix such as C: (second byte a colon,
first byte in A..Z), then the copy loop; an empty result is rejected. -/
def file_sanitize_filename (filename : List Nat) (size : Nat) :
    Int × List Nat :=
  if size = 0 then (FT_ERR_INVALID_ARG, [])
  else if hasDotDot filename then (FT_ERR_INVALID_ARG, [])
  else if filename.getD 0 0 = 47 ∨ filename.getD 0 0 = 92 ∨
      (filename.getD 1 0 = 58 ∧ 65 ≤ filename.getD 0 0 ∧
        filename.getD 0 0 ≤ 90) then
    (FT_ERR_INVALID_ARG, [])
  else
    let s := sanitizeCopy filename (size - 1)
    if s = [] then (FT_ERR_INVALID_ARG, []) else (FT_SUCCESS, s)

/-- file_finalize_write, fileio.c lines 60-79: a plain rename of the
temp path to the final path; on rename failure it returns the
file-write error and, notably, does not remove the temp file. -/
def file_finalize_write (renameOk : Bool) : Int :=
  if renameOk then FT_SUCCESS else FT_ERR_FILE_WRITE

/-- file_read_chunk, fileio.c lines 82-102: seek and fread.  fread may
return fewer bytes than requested (end of file is not an error); only
a zero-byte read with the stream error indicator set produces
FT_ERR_FILE_READ.  The readErr flag models that ferror case. -/
def file_read_chunk (fileBytes : List Nat) (offset toRead : Nat)
    (readErr : Bool) : Except Int (List Nat) :=
  if readErr then .error FT_ERR_FILE_READ
  else .ok ((fileBytes.drop offset).take toRead)

/-! ## Receiver state machine (src/src/server/server_main.c) -/

/-- Observable receiver actions: filesystem operations on the temp and
final paths, and protocol messages sent back to the client. -/
inductive REvent
  | openTemp
  | sendFileAck
  | sendError (code : Int)
  | ackChunk (chunk_id status : Nat)
  | writeChunk (chunk_id chunk_offset chunk_size : Nat)
  | deleteTemp
  | renameTemp
  deriving Repr, DecidableEq

/-- The wire input consumed by one recv_chunk call: possible socket
failures at each of the three reads, the 32 message-header bytes, the
24 chunk-header bytes, and the data stream. -/
structure IncomingChunkMsg where
  sockFailHdr : Option Int
  hdrBytes : List Nat
  sockFailChunkHdr : Option Int
  chunkHdrBytes : List Nat
  sockFailData : Option Int
  data : List Nat
  deriving Repr, DecidableEq

/-- recv_chunk, network.c lines 407-462: read and validate the message
header, require MSG_CHUNK_DATA, read the chunk header, bound its
chunk_size by the caller maximum, read chunk_size data bytes, then
verify the chunk CRC-32.  On a checksum mismatch the error carries the
deserialized chunk header (the caller uses its chunk_id for the retry
ack); the chunk_id of the incoming chunk is never compared with any
expected value. -/
def recv_chunk (maxDataSize : Nat) (m : IncomingChunkMsg) :
    Except (Int × Option ChunkHeader) ChunkHeader :=
  match m.sockFailHdr with
  | some e => .error (e, none)
  | none =>
    let msgHdr := protocol_deserialize_header m.hdrBytes
    if protocol_validate_header msgHdr ≠ FT_SUCCESS then
      .error (FT_ERR_PROTOCOL, none)
    else if msgHdr.msg_type ≠ MSG_CHUNK_DATA then
      .error (FT_ERR_PROTOCOL, none)
    else match m.sockFailChunkHdr with
      | some e => .error (e, none)
      | none =>
        let ch := protocol_deserialize_chunk_header m.chunkHdrBytes
        if ch.chunk_size > maxDataSize then .error (FT_ERR_PROTOCOL, some ch)
        else match m.sockFailData with
          | some e => .error (e, some ch)
          | none =>
            if crc32_compute (m.data.take ch.chunk_size) ≠ ch.chunk_crc32 then
              .error (FT_ERR_CHECKSUM, some ch)
            else .ok ch

/-- Per-iteration oracle of the receiver chunk loop: the incoming wire
message, the result of file_write_chunk (none is success), and the
result of sending the success ack. -/
structure ChunkStep where
  msg : IncomingChunkMsg
  writeErr : Option Int
  ackSendOk : Bool
  deriving Repr, DecidableEq

/-- Outcome of the receiver chunk loop; starved is a model artifact for
running out of scripted wire input while chunks are still missing. -/
inductive LoopRes
  | completed
  | failed
  | starved
  deriving Repr, DecidableEq

/-- The chunk loop of receive_file, server_main.c lines 129-170: until
total_chunks chunks are counted, call recv_chunk; on a checksum error
send a retry ack bearing the chunk_id from the failed message and loop
without bound; on any other receive error fail; otherwise write the
chunk at its declared offset, send a success ack, and increment the
counter.  No comparison of the incoming chunk_id against the number of
chunks already received is made. -/
def receiveChunkLoop (fi : FileInfo) : List ChunkStep → Nat → LoopRes × List REvent
  | [], received =>
    if received < fi.total_chunks then (.starved, []) else (.completed, [])
  | s :: rest, received =>
    if received < fi.total_chunks then
      match recv_chunk fi.chunk_size s.msg with
      | .error (e, ch?) =>
        if e = FT_ERR_CHECKSUM then
          let cid := match ch? with | some ch => ch.chunk_id | none => 0
          let r := receiveChunkLoop fi rest received
          (r.1, .ackChunk cid 1 :: r.2)
        else (.failed, [])
      | .ok ch =>
        match s.writeErr with
        | some e => (.failed, [.sendError e])
        | none =>
          if s.ackSendOk then
            let r := receiveChunkLoop fi rest (received + 1)
            (r.1, .writeChunk ch.chunk_id ch.chunk_offset ch.chunk_size ::
              .ackChunk ch.chunk_id 0 :: r.2)
          else (.failed, [.writeChunk ch.chunk_id ch.chunk_offset ch.chunk_size])
    else (.completed, [])

/-- Environment of one receive_file run: results of the handshake, the
file-info receive, the disk-space probe, the temp open, the file-ack
send, the buffer allocation, the scripted chunk-loop input, and the
final rename. -/
structure REnv where
  handshakeOk : Bool
  fileInfo : Option FileInfo
  diskOk : Bool
  openOk : Bool
  fileAckSendOk : Bool
  allocOk : Bool
  chunkSteps : List ChunkStep
  finalizeOk : Bool
  deriving Repr, DecidableEq

/-- receive_file, server_main.c lines 55-206: handshake, file info,
sanitize, disk check, open temp, send file ack, allocate, chunk loop,
close, finalize.  The cleanup label deletes the temp path only while
the FILE handle is still open; after the pre-finalize fclose sets it to
NULL, a finalize (rename) failure returns without deleting the temp
path. -/
def receive_file (env : REnv) : Int × List REvent :=
  if ¬env.handshakeOk then (-1, [])
  else match env.fileInfo with
  | none => (-1, [])
  | some fi =>
    if (file_sanitize_filename fi.filename FT_MAX_FILENAME_LEN).1 ≠ FT_SUCCESS then
      (-1, [.sendError FT_ERR_INVALID_ARG])
    else if ¬env.diskOk then (-1, [.sendError FT_ERR_DISK_FULL])
    else if ¬env.openOk then (-1, [.sendError FT_ERR_FILE_OPEN])
    else if ¬env.fileAckSendOk then (-1, [.openTemp, .deleteTemp])
    else if ¬env.allocOk then
      (-1, [.openTemp, .sendFileAck, .sendError FT_ERR_OUT_OF_MEMORY, .deleteTemp])
    else
      let r := receiveChunkLoop fi env.chunkSteps 0
      match r.1 with
      | .starved => (-2, .openTemp :: .sendFileAck :: r.2)
      | .failed => (-1, .openTemp :: .sendFileAck :: (r.2 ++ [.deleteTemp]))
      | .completed =>
        if file_finalize_write env.finalizeOk ≠ FT_SUCCESS then
          (-1, .openTemp :: .sendFileAck :: r.2)
        else (0, .openTemp :: .sendFileAck :: (r.2 ++ [.renameTemp]))

/-! ## Sender state machine (src/src/client/client_main.c) -/

/-- ChunkAck payload as used by the sender (protocol.h): chunk_id and
status (0 is success, 1 requests a retransmit). -/
structure ChunkAck where
  chunk_id : Nat
  status : Nat
  deriving Repr, DecidableEq

/-- One attempt of the sender retry loop: whether send_chunk succeeded
and, if the ack receive succeeded, the received ack. -/
structure SAttempt where
  sendOk : Bool
  ackRecv : Option ChunkAck
  deriving Repr, DecidableEq

/-- Observable sender actions: a chunk put on the wire with its byte
count, and a failed source read. -/
inductive SEvent
  | sentChunk (chunk_id size : Nat)
  | readError
  deriving Repr, DecidableEq

/-- Outcome of the sender retry loop; starved is a model artifact for
running out of scripted attempts. -/
inductive RetryRes
  | success
  | failed
  | starved
  deriving Repr, DecidableEq

/-- The inner retry loop of send_file, client_main.c lines 173-214:
while retry_count is below FT_MAX_RETRIES, send the chunk and await an
ack; a send failure, an ack receive failure, or an ack with nonzero
status increments retry_count and, once it reaches FT_MAX_RETRIES,
fails the transfer; a zero-status ack commits the chunk.  The result
also counts loop iterations (attempts made). -/
def sendChunkRetry (chunk_id size : Nat) :
    List SAttempt → Nat → RetryRes × List SEvent × Nat
  | [], _ => (.starved, [], 0)
  | a :: rest, retry_count =>
    if retry_count < FT_MAX_RETRIES then
      if ¬a.sendOk then
        if retry_count + 1 ≥ FT_MAX_RETRIES then (.failed, [], 1)
        else
          let r := sendChunkRetry chunk_id size rest (retry_count + 1)
          (r.1, r.2.1, r.2.2 + 1)
      else
        match a.ackRecv with
        | none =>
          if retry_count + 1 ≥ FT_MAX_RETRIES then
            (.failed, [.sentChunk chunk_id size], 1)
          else
            let r := sendChunkRetry chunk_id size rest (retry_count + 1)
            (r.1, .sentChunk chunk_id size :: r.2.1, r.2.2 + 1)
        | some ack =>
          if ack.status ≠ 0 then
            if retry_count + 1 ≥ FT_MAX_RETRIES then
              (.failed, [.sentChunk chunk_id size], 1)
            else
              let r := sendChunkRetry chunk_id size rest (retry_count + 1)
              (r.1, .sentChunk chunk_id size :: r.2.1, r.2.2 + 1)
          else (.success, [.sentChunk chunk_id size], 1)
    else (.failed, [], 0)

/-- Per-chunk oracle of the sender loop: whether the source read hits
the ferror case, and the scripted attempts of the retry loop. -/
structure SChunk where
  readErr : Bool
  attempts : List SAttempt
  deriving Repr, DecidableEq

/-- Environment of one send_file run after the source file is open. -/
structure SEnv where
  handshakeOk : Bool
  fileInfoSendOk : Bool
  fileAckResp : Option Nat
  allocOk : Bool
  chunks : List SChunk
  deriving Repr, DecidableEq

/-- The total_chunks computation of send_file, client_main.c line 98:
(file_size + chunk_size - 1) / chunk_size in u64 arithmetic with the
default chunk size. -/
def total_chunks_c (file_size : Nat) : Nat :=
  ((file_size + FT_DEFAULT_CHUNK_SIZE - 1) % 2 ^ 64) / FT_DEFAULT_CHUNK_SIZE

/-- The chunk loop of send_file, client_main.c lines 155-233: for each
chunk_id below total_chunks, compute the offset and the expected size
(the last chunk may be short), read from the source, and run the retry
loop on whatever number of bytes the read returned; the byte count
actually read is never compared against the expected size. -/
def sendChunkLoop (fs : Nat) (fileBytes : List Nat) (total : Nat) :
    List SChunk → Nat → Int × List SEvent
  | chunks, chunk_id =>
    if chunk_id < total then
      match chunks with
      | [] => (-2, [])
      | c :: rest =>
        let offset := chunk_id * FT_DEFAULT_CHUNK_SIZE
        let toRead := if offset + FT_DEFAULT_CHUNK_SIZE > fs then fs - offset
          else FT_DEFAULT_CHUNK_SIZE
        match file_read_chunk fileBytes offset toRead c.readErr with
        | .error _ => (-1, [.readError])
        | .ok data =>
          let r := sendChunkRetry chunk_id data.length c.attempts 0
          match r.1 with
          | .success =>
            let r2 := sendChunkLoop fs fileBytes total rest (chunk_id + 1)
            (r2.1, r.2.1 ++ r2.2)
          | .failed => (-1, r.2.1)
          | .starved => (-2, r.2.1)
    else (0, [])

/-- send_file, client_main.c lines 68-258: metadata and open (assumed
successful here), handshake, file info, file ack (an ERROR or an
unexpected type aborts), chunk buffer allocation, then the chunk loop;
there is no completion message in this revision. -/
def send_file (file_size : Nat) (fileBytes : List Nat) (env : SEnv) :
    Int × List SEvent :=
  if ¬env.handshakeOk then (-1, [])
  else if ¬env.fileInfoSendOk then (-1, [])
  else match env.fileAckResp with
  | none => (-1, [])
  | some t =>
    if t = MSG_ERROR then (-1, [])
    else if t ≠ MSG_FILE_ACK then (-1, [])
    else if ¬env.allocOk then (-1, [])
    else sendChunkLoop file_size fileBytes (total_chunks_c file_size) env.chunks 0

/-! ## Concrete inputs for witnesses and counterexamples -/

/-- A FileInfo for a one-chunk transfer of a three-byte file named a. -/
def fiW : FileInfo :=
  { filename_len := 1, filename := [97], file_size := 3, total_chunks := 1,
    chunk_size := FT_DEFAULT_CHUNK_SIZE, checksum_type := 2,
    file_checksum := List.replicate 32 0, file_mode := 420, timestamp := 0 }

/-- A well-formed CHUNK_DATA wire message with chunk_id 7 carrying the
three bytes 1, 2, 3 with a correct chunk CRC. -/
def chunkMsg7 : IncomingChunkMsg :=
  { sockFailHdr := none
    hdrBytes := protocol_serialize_header
      { magic := FT_MAGIC_NUMBER, version := 1, msg_type := MSG_CHUNK_DATA,
        flags := 0, sequence_num := 2, payload_size := 27, checksum := 0,
        reserved := 0 }
    sockFailChunkHdr := none
    chunkHdrBytes := protocol_serialize_chunk_header
      { chunk_id := 7, chunk_offset := 0, chunk_size := 3,
        chunk_crc32 := crc32_compute [1, 2, 3] }
    sockFailData := none
    data := [1, 2, 3] }

/-- The same wire message with corrupted data bytes, so its chunk CRC
no longer matches. -/
def chunkMsgBad : IncomingChunkMsg :=
  { chunkMsg7 with data := [9, 9, 9] }

/-- A chunk-loop step delivering the well-formed chunk_id 7 message. -/
def stepGood : ChunkStep :=
  { msg := chunkMsg7, writeErr := none, ackSendOk := true }

/-- A chunk-loop step delivering the checksum-corrupted message. -/
def stepBad : ChunkStep :=
  { msg := chunkMsgBad, writeErr := none, ackSendOk := true }

/-- A receiver environment whose only incoming chunk has chunk_id 7
although no chunk has been accepted yet. -/
def envC1 : REnv :=
  { handshakeOk := true, fileInfo := some fiW, diskOk := true, openOk := true,
    fileAckSendOk := true, allocOk := true, chunkSteps := [stepGood],
    finalizeOk := true }

/-- The same receiver run except that the final rename fails. -/
def envC2 : REnv :=
  { envC1 with finalizeOk := false }

/-- A receiver run in which the same chunk fails its checksum four
times before a good copy arrives. -/
def envC8 : REnv :=
  { envC1 with chunkSteps := List.replicate 4 stepBad ++ [stepGood] }

/-- A successful sender attempt acknowledged with status 0. -/
def attemptOk : SAttempt :=
  { sendOk := true, ackRecv := some { chunk_id := 0, status := 0 } }

/-- A sender attempt answered by a status 1 retry request. -/
def attemptRetry : SAttempt :=
  { sendOk := true, ackRecv := some { chunk_id := 0, status := 1 } }

/-- A sender environment for a single chunk whose only attempt succeeds
with a zero-status ack. -/
def envC7 : SEnv :=
  { handshakeOk := true, fileInfoSendOk := true,
    fileAckResp := some MSG_FILE_ACK, allocOk := true,
    chunks := [{ readErr := false, attempts := [attemptOk] }] }

/-! ## C6: total chunk count and the empty transfer -/

/-- A sender environment with no scripted chunks, for the empty
transfer. -/
def envC6 : SEnv :=
  { envC7 with chunks := [] }

/-- A sender chunk oracle hitting the read-error path. -/
def cRead : SChunk :=
  { readErr := true, attempts := [] }

/-- The traversal filename ../etc/passwd as bytes. -/
def nameTraversal : List Nat :=
  [46, 46, 47, 101, 116, 99, 47, 112, 97, 115, 115, 119, 100]

/-- A FileInfo declaring the traversal filename. -/
def fiBadName : FileInfo :=
  { fiW with filename := nameTraversal }

/-- A receiver environment handed the traversal filename. -/
def envC5 : REnv :=
  { envC1 with fileInfo := some fiBadName }

/-! ## Basic lemmas about the byte primitives -/

theorem beBytes_length (n x : Nat) : (beBytes n x).length = n := by
  induction n generalizing x with
  | zero => rfl
  | succ n ih => simp [beBytes, ih]

theorem fromBE_snoc (l : List Nat) (b : Nat) :
    fromBE (l ++ [b]) = fromBE l * 256 + b := by
  simp [fromBE, List.foldl_append]

theorem fromBE_append (l1 l2 : List Nat) :
    fromBE (l1 ++ l2) = fromBE l1 * 256 ^ l2.length + fromBE l2 := by
  induction l2 using List.reverseRecOn with
  | nil => simp [fromBE]
  | append_singleton l2 b ih =>
    rw [← List.append_assoc, fromBE_snoc, fromBE_snoc, ih]
    simp [pow_succ]
    ring

theorem fromBE_beBytes (n x : Nat) : fromBE (beBytes n x) = x % 256 ^ n := by
  induction n generalizing x with
  | zero => simp [beBytes, fromBE, Nat.mod_one]
  | succ n ih =>
    rw [beBytes, fromBE_append, ih]
    simp [fromBE]
    rw [pow_succ']
    rw [Nat.mod_mul]
    ring

theorem natXor_lt_two_pow {a b n : Nat} (ha : a < 2 ^ n) (hb : b < 2 ^ n) :
    a ^^^ b < 2 ^ n :=
  Nat.bitwise_lt_two_pow ha hb

theorem crc32Bit_lt {c : Nat} (h : c < 2 ^ 32) : crc32Bit c < 2 ^ 32 := by
  unfold crc32Bit
  split
  · exact natXor_lt_two_pow (by omega) (by norm_num)
  · omega

theorem crc32Bits_lt (n : Nat) {c : Nat} (h : c < 2 ^ 32) :
    crc32Bits n c < 2 ^ 32 := by
  induction n generalizing c with
  | zero => simpa [crc32Bits] using h
  | succ n ih => exact ih (crc32Bit_lt h)

theorem crc32Byte_lt {c : Nat} (b : Nat) (h : c < 2 ^ 32) :
    crc32Byte c b < 2 ^ 32 :=
  crc32Bits_lt 8 (natXor_lt_two_pow h (lt_of_lt_of_le (Nat.mod_lt _ (by norm_num)) (by norm_num)))

theorem crc32_compute_lt (data : List Nat) : crc32_compute data < 2 ^ 32 := by
  unfold crc32_compute
  have : ∀ (l : List Nat) (c : Nat), c < 2 ^ 32 → l.foldl crc32Byte c < 2 ^ 32 := by
    intro l
    induction l with
    | nil => intro c h; simpa using h
    | cons b rest ih => intro c h; exact ih _ (crc32Byte_lt b h)
  exact natXor_lt_two_pow (this data _ (by norm_num)) (by norm_num)

theorem rdBE_skip (l1 l2 : List Nat) (k n : Nat) :
    rdBE (l1 ++ l2) (l1.length + k) n = rdBE l2 k n := by
  unfold rdBE
  rw [List.drop_append]

theorem rdBE_here (l1 l2 : List Nat) {n : Nat} (h : l1.length = n) :
    rdBE (l1 ++ l2) 0 n = fromBE l1 := by
  unfold rdBE
  rw [List.drop_zero, ← h, List.take_left]

theorem rdBE_skip_be (m y : Nat) (l2 : List Nat) (k n : Nat) :
    rdBE (beBytes m y ++ l2) (m + k) n = rdBE l2 k n := by
  have h := rdBE_skip (beBytes m y) l2 k n
  rwa [beBytes_length] at h

theorem rdBE_here_be (m y : Nat) (l2 : List Nat) :
    rdBE (beBytes m y ++ l2) 0 m = y % 256 ^ m := by
  rw [rdBE_here (beBytes m y) l2 (beBytes_length m y), fromBE_beBytes]

theorem rdBE_skip_be' (m y : Nat) {l2 : List Nat} {off k n : Nat}
    (hoff : off = m + k) :
    rdBE (beBytes m y ++ l2) off n = rdBE l2 k n := by
  subst hoff
  exact rdBE_skip_be m y l2 k n

theorem rdBE_here_be' (m y : Nat) {l2 : List Nat} :
    rdBE (beBytes m y ++ l2) 0 m = y % 256 ^ m :=
  rdBE_here_be m y l2

theorem serialize_header_eq (h : MessageHeader) :
    protocol_serialize_header h =
      hdrLayout h.magic h.version h.msg_type h.flags h.sequence_num
        h.payload_size
        (crc32_compute (beBytes 4 h.magic ++ beBytes 1 h.version ++
          beBytes 1 h.msg_type ++ beBytes 2 h.flags ++
          beBytes 8 h.sequence_num ++ beBytes 8 h.payload_size))
        h.reserved := by
  simp [protocol_serialize_header, hdrLayout, List.append_assoc]

theorem rdBE_layout_magic (m v t f s p c r : Nat) :
    rdBE (hdrLayout m v t f s p c r) 0 4 = m % 256 ^ 4 := by
  unfold hdrLayout
  exact rdBE_here_be' 4 m

theorem rdBE_layout_version (m v t f s p c r : Nat) :
    rdBE (hdrLayout m v t f s p c r) 4 1 = v % 256 ^ 1 := by
  unfold hdrLayout
  rw [rdBE_skip_be' 4 m (show (4:Nat) = 4 + 0 by norm_num)]
  exact rdBE_here_be' 1 v

theorem rdBE_layout_msg_type (m v t f s p c r : Nat) :
    rdBE (hdrLayout m v t f s p c r) 5 1 = t % 256 ^ 1 := by
  unfold hdrLayout
  rw [rdBE_skip_be' 4 m (show (5:Nat) = 4 + 1 by norm_num),
    rdBE_skip_be' 1 v (show (1:Nat) = 1 + 0 by norm_num)]
  exact rdBE_here_be' 1 t

theorem rdBE_layout_flags (m v t f s p c r : Nat) :
    rdBE (hdrLayout m v t f s p c r) 6 2 = f % 256 ^ 2 := by
  unfold hdrLayout
  rw [rdBE_skip_be' 4 m (show (6:Nat) = 4 + 2 by norm_num),
    rdBE_skip_be' 1 v (show (2:Nat) = 1 + 1 by norm_num),
    rdBE_skip_be' 1 t (show (1:Nat) = 1 + 0 by norm_num)]
  exact rdBE_here_be' 2 f

theorem rdBE_layout_sequence (m v t f s p c r : Nat) :
    rdBE (hdrLayout m v t f s p c r) 8 8 = s % 256 ^ 8 := by
  unfold hdrLayout
  rw [rdBE_skip_be' 4 m (show (8:Nat) = 4 + 4 by norm_num),
    rdBE_skip_be' 1 v (show (4:Nat) = 1 + 3 by norm_num),
    rdBE_skip_be' 1 t (show (3:Nat) = 1 + 2 by norm_num),
    rdBE_skip_be' 2 f (show (2:Nat) = 2 + 0 by norm_num)]
  exact rdBE_here_be' 8 s

theorem rdBE_layout_payload (m v t f s p c r : Nat) :
    rdBE (hdrLayout m v t f s p c r) 16 8 = p % 256 ^ 8 := by
  unfold hdrLayout
  rw [rdBE_skip_be' 4 m (show (16:Nat) = 4 + 12 by norm_num),
    rdBE_skip_be' 1 v (show (12:Nat) = 1 + 11 by norm_num),
    rdBE_skip_be' 1 t (show (11:Nat) = 1 + 10 by norm_num),
    rdBE_skip_be' 2 f (show (10:Nat) = 2 + 8 by norm_num),
    rdBE_skip_be' 8 s (show (8:Nat) = 8 + 0 by norm_num)]
  exact rdBE_here_be' 8 p

theorem rdBE_layout_checksum (m v t f s p c r : Nat) :
    rdBE (hdrLayout m v t f s p c r) 24 4 = c % 256 ^ 4 := by
  unfold hdrLayout
  rw [rdBE_skip_be' 4 m (show (24:Nat) = 4 + 20 by norm_num),
    rdBE_skip_be' 1 v (show (20:Nat) = 1 + 19 by norm_num),
    rdBE_skip_be' 1 t (show (19:Nat) = 1 + 18 by norm_num),
    rdBE_skip_be' 2 f (show (18:Nat) = 2 + 16 by norm_num),
    rdBE_skip_be' 8 s (show (16:Nat) = 8 + 8 by norm_num),
    rdBE_skip_be' 8 p (show (8:Nat) = 8 + 0 by norm_num)]
  exact rdBE_here_be' 4 c

theorem rdBE_layout_reserved (m v t f s p c r : Nat) :
    rdBE (hdrLayout m v t f s p c r) 28 4 = r % 256 ^ 4 := by
  unfold hdrLayout
  rw [rdBE_skip_be' 4 m (show (28:Nat) = 4 + 24 by norm_num),
    rdBE_skip_be' 1 v (show (24:Nat) = 1 + 23 by norm_num),
    rdBE_skip_be' 1 t (show (23:Nat) = 1 + 22 by norm_num),
    rdBE_skip_be' 2 f (show (22:Nat) = 2 + 20 by norm_num),
    rdBE_skip_be' 8 s (show (20:Nat) = 8 + 12 by norm_num),
    rdBE_skip_be' 8 p (show (12:Nat) = 8 + 4 by norm_num),
    rdBE_skip_be' 4 c (show (4:Nat) = 4 + 0 by norm_num)]
  exact rdBE_here_be' 4 r

/-- The first 24 bytes of a serialized header are exactly the six
pre-checksum fields. -/
theorem serialize_header_take24 (h : MessageHeader) :
    (protocol_serialize_header h).take 24 =
      beBytes 4 h.magic ++ beBytes 1 h.version ++ beBytes 1 h.msg_type ++
      beBytes 2 h.flags ++ beBytes 8 h.sequence_num ++
      beBytes 8 h.payload_size := by
  have hl : (beBytes 4 h.magic ++ beBytes 1 h.version ++ beBytes 1 h.msg_type ++
      beBytes 2 h.flags ++ beBytes 8 h.sequence_num ++
      beBytes 8 h.payload_size).length = 24 := by
    simp [beBytes_length]
  unfold protocol_serialize_header
  rw [List.append_assoc]
  rw [show (24:Nat) = (beBytes 4 h.magic ++ beBytes 1 h.version ++
    beBytes 1 h.msg_type ++ beBytes 2 h.flags ++ beBytes 8 h.sequence_num ++
    beBytes 8 h.payload_size).length from hl.symm]
  exact List.take_left _ _

/-! ## C3: header serialize/deserialize round trip -/

/-- C3 (amended): for every in-range header h, deserialize of serialize
restores magic, version, msg_type, flags, sequence_num, payload_size and
reserved exactly; the checksum field of the result is the CRC-32 of the
first 24 serialized bytes (not the checksum field of h), and that CRC
equals the big-endian u32 stored at bytes 24..28 of the buffer. -/
theorem C3_roundtrip_amended (h : MessageHeader)
    (h1 : h.magic < 2 ^ 32) (h2 : h.version < 2 ^ 8) (h3 : h.msg_type < 2 ^ 8)
    (h4 : h.flags < 2 ^ 16) (h5 : h.sequence_num < 2 ^ 64)
    (h6 : h.payload_size < 2 ^ 64) (h7 : h.reserved < 2 ^ 32) :
    protocol_deserialize_header (protocol_serialize_header h) =
      { h with checksum :=
          crc32_compute ((protocol_serialize_header h).take 24) } ∧
    rdBE (protocol_serialize_header h) 24 4 =
      crc32_compute ((protocol_serialize_header h).take 24) := by
  have hser := serialize_header_eq h
  have htake := serialize_header_take24 h
  have hcrc : crc32_compute ((protocol_serialize_header h).take 24) =
      crc32_compute (beBytes 4 h.magic ++ beBytes 1 h.version ++
        beBytes 1 h.msg_type ++ beBytes 2 h.flags ++
        beBytes 8 h.sequence_num ++ beBytes 8 h.payload_size) := by
    rw [htake]
  have hm : h.magic % 256 ^ 4 = h.magic :=
    Nat.mod_eq_of_lt (by norm_num at h1 ⊢; exact h1)
  have hv : h.version % 256 ^ 1 = h.version :=
    Nat.mod_eq_of_lt (by norm_num at h2 ⊢; exact h2)
  have ht : h.msg_type % 256 ^ 1 = h.msg_type :=
    Nat.mod_eq_of_lt (by norm_num at h3 ⊢; exact h3)
  have hf : h.flags % 256 ^ 2 = h.flags :=
    Nat.mod_eq_of_lt (by norm_num at h4 ⊢; exact h4)
  have hs : h.sequence_num % 256 ^ 8 = h.sequence_num :=
    Nat.mod_eq_of_lt (by norm_num at h5 ⊢; exact h5)
  have hp : h.payload_size % 256 ^ 8 = h.payload_size :=
    Nat.mod_eq_of_lt (by norm_num at h6 ⊢; exact h6)
  have hr : h.reserved % 256 ^ 4 = h.reserved :=
    Nat.mod_eq_of_lt (by norm_num at h7 ⊢; exact h7)
  have hc : ∀ z : List Nat, crc32_compute z % 256 ^ 4 = crc32_compute z := by
    intro z
    exact Nat.mod_eq_of_lt (by have := crc32_compute_lt z; norm_num at this ⊢; exact this)
  constructor
  · show protocol_deserialize_header (protocol_serialize_header h) = _
    unfold protocol_deserialize_header
    rw [hcrc, hser]
    rw [rdBE_layout_magic, rdBE_layout_version, rdBE_layout_msg_type,
      rdBE_layout_flags, rdBE_layout_sequence, rdBE_layout_payload,
      rdBE_layout_checksum, rdBE_layout_reserved]
    rw [hm, hv, ht, hf, hs, hp, hr, hc]
  · rw [hcrc, hser, rdBE_layout_checksum, hc]

set_option maxRecDepth 100000 in
/-- C3 counterexample: the claim as stated fails on the checksum field:
for a header whose checksum field is 0, deserialize of serialize returns
a header whose checksum field is the recomputed header CRC, which is
nonzero, so the result is not equal to the input in every field. -/
theorem C3_counterexample :
    protocol_deserialize_header (protocol_serialize_header hdrW) ≠ hdrW := by
  decide

set_option maxRecDepth 100000 in
/-- C3 witness: the amended round-trip theorem applied to a concrete
in-range header. -/
theorem C3_witness :
    protocol_deserialize_header (protocol_serialize_header hdrW) =
      { hdrW with checksum :=
          crc32_compute ((protocol_serialize_header hdrW).take 24) } ∧
    rdBE (protocol_serialize_header hdrW) 24 4 =
      crc32_compute ((protocol_serialize_header hdrW).take 24) :=
  C3_roundtrip_amended hdrW (by decide) (by decide) (by decide) (by decide)
    (by decide) (by decide) (by decide)

/-! ## C9: header validation -/

/-- C9: protocol_validate_header succeeds exactly on magic 0x46544350,
version 0x01, and msg_type among the declared types 0x01..0x09 or
MSG_ERROR 0xFF (so msg_type 0 and all other unknown values are
rejected); a bad magic yields the protocol error, a bad version the
version error, and a bad type the invalid-message error. -/
theorem C9_validate_header (h : MessageHeader) :
    (protocol_validate_header h = FT_SUCCESS ↔
      h.magic = 0x46544350 ∧ h.version = 0x01 ∧
        ((MSG_HANDSHAKE_REQ ≤ h.msg_type ∧ h.msg_type ≤ MSG_VERIFY_RESPONSE) ∨
          h.msg_type = MSG_ERROR)) ∧
    (h.magic ≠ 0x46544350 → protocol_validate_header h = FT_ERR_PROTOCOL) ∧
    (h.magic = 0x46544350 → h.version ≠ 0x01 →
      protocol_validate_header h = FT_ERR_VERSION) ∧
    (h.magic = 0x46544350 → h.version = 0x01 →
      ¬((MSG_HANDSHAKE_REQ ≤ h.msg_type ∧ h.msg_type ≤ MSG_VERIFY_RESPONSE) ∨
          h.msg_type = MSG_ERROR) →
      protocol_validate_header h = FT_ERR_INVALID_MSG) := by
  unfold protocol_validate_header
  unfold FT_MAGIC_NUMBER FT_PROTOCOL_VERSION MSG_HANDSHAKE_REQ
    MSG_VERIFY_RESPONSE MSG_ERROR FT_SUCCESS FT_ERR_PROTOCOL FT_ERR_VERSION
    FT_ERR_INVALID_MSG
  split_ifs with g1 g2 g3 <;>
    refine ⟨?_, ?_, ?_, ?_⟩ <;> simp_all <;> omega

/-- C9 witness: the validation theorem applied at concrete headers for
each of the four cases. -/
theorem C9_witness :
    protocol_validate_header hdrW = FT_SUCCESS ∧
    protocol_validate_header hdrBadMagic = FT_ERR_PROTOCOL ∧
    protocol_validate_header hdrBadVersion = FT_ERR_VERSION ∧
    protocol_validate_header hdrBadType = FT_ERR_INVALID_MSG :=
  ⟨(C9_validate_header hdrW).1.mpr (by decide),
   (C9_validate_header hdrBadMagic).2.1 (by decide),
   (C9_validate_header hdrBadVersion).2.2.1 (by decide) (by decide),
   (C9_validate_header hdrBadType).2.2.2 (by decide) (by decide) (by decide)⟩

set_option maxRecDepth 1000000 in
/-- C4 counterexample: for the corrupted buffer the stored header CRC no
longer matches the CRC-32 of the first 24 bytes, yet recv_message does
not reject the header (it checks no header CRC) and plans to read
exactly the corrupted 50-byte payload length from the connection. -/
theorem C4_counterexample :
    crc32_compute (corruptBuf.take 24) ≠ rdBE corruptBuf 24 4 ∧
    planLen (recv_message_plan corruptBuf 4096) = some 50 := by
  decide

/-- C4 (amended): recv_message performs no header-CRC verification; a
corrupted payload_size that passes the magic, version and msg_type
checks causes a payload read of exactly that corrupted length.  The
read length is, however, always bounded by the caller-supplied maximum
payload size, and always equals the payload_size field of the
deserialized header. -/
theorem C4_recv_bounded (b : List Nat) (maxP : Nat) (h : MessageHeader)
    (n : Nat) (hok : recv_message_plan b maxP = .ok (h, n)) :
    n ≤ maxP ∧ n = (protocol_deserialize_header b).payload_size := by
  simp only [recv_message_plan] at hok
  split_ifs at hok <;> simp at hok <;> omega

set_option maxRecDepth 1000000 in
/-- C4 witness: the bounded-read theorem applied to the concrete
corrupted buffer. -/
theorem C4_witness :
    50 ≤ 4096 ∧
    50 = (protocol_deserialize_header corruptBuf).payload_size :=
  C4_recv_bounded corruptBuf 4096 (protocol_deserialize_header corruptBuf)
    50 (by rfl)

/-! ## C10: FileInfo filename termination -/

/-- C10: for every 1024-byte input buffer, the FileInfo produced by
protocol_deserialize_file_info has a filename field of exactly 256
bytes whose last byte (index 255) is zero, so the filename is always
null-terminated within its field. -/
theorem C10_filename_terminated (b : List Nat) (hb : b.length = 1024) :
    (protocol_deserialize_file_info b).filename.length = 256 ∧
    (protocol_deserialize_file_info b).filename.getD 255 0 = 0 := by
  have hlen : ((b.drop 2).take 256).length = 256 := by
    simp [List.length_take, List.length_drop, hb]
  constructor
  · show (((b.drop 2).take FT_MAX_FILENAME_LEN).set
      (FT_MAX_FILENAME_LEN - 1) 0).length = 256
    rw [List.length_set]
    exact hlen
  · show (((b.drop 2).take FT_MAX_FILENAME_LEN).set
      (FT_MAX_FILENAME_LEN - 1) 0).getD 255 0 = 0
    rw [List.getD_eq_getElem?_getD]
    rw [show FT_MAX_FILENAME_LEN - 1 = 255 from rfl]
    rw [List.getElem?_set_self (by rw [show FT_MAX_FILENAME_LEN = 256 from rfl, hlen]; omega)]
    rfl

/-- C10 witness: the termination theorem applied to the concrete
1024-byte buffer whose filename region is 256 nonzero bytes (all 65). -/
theorem C10_witness :
    (protocol_deserialize_file_info (List.replicate 1024 65)).filename.length = 256 ∧
    (protocol_deserialize_file_info (List.replicate 1024 65)).filename.getD 255 0 = 0 :=
  C10_filename_terminated (List.replicate 1024 65)
    (List.length_replicate 1024 65)

/-! ## C5: filename sanitization rejects traversal and absolute paths -/

theorem hasDotDot_of_append (l1 l2 : List Nat) :
    hasDotDot (l1 ++ 46 :: 46 :: l2) = true := by
  induction l1 with
  | nil => simp [hasDotDot]
  | cons a l1 ih =>
    cases l1 with
    | nil => simp_all [hasDotDot]
    | cons b l1' => simp_all [hasDotDot]

theorem hasDotDot_of_dotdot_inside {name : List Nat}
    (h : [46, 46] <:+: name) : hasDotDot name = true := by
  obtain ⟨s, t, hst⟩ := h
  subst hst
  simpa using hasDotDot_of_append s t

/-- C5: every declared filename that contains two consecutive dots
anywhere, or begins with a slash or backslash, or begins with an
uppercase drive prefix (second byte a colon, first byte in A..Z), is
rejected by file_sanitize_filename with FT_ERR_INVALID_ARG, and a
receiver handed such a filename in its FileInfo never opens a temp
file and never renames one into place: no file is created in the
output directory for that transfer. -/
theorem C5_sanitize_rejects (name : List Nat)
    (hbad : [46, 46] <:+: name ∨ name.getD 0 0 = 47 ∨ name.getD 0 0 = 92 ∨
      (name.getD 1 0 = 58 ∧ 65 ≤ name.getD 0 0 ∧ name.getD 0 0 ≤ 90)) :
    (file_sanitize_filename name FT_MAX_FILENAME_LEN).1 = FT_ERR_INVALID_ARG ∧
    ∀ (env : REnv) (fi : FileInfo), env.fileInfo = some fi →
      fi.filename = name →
      REvent.openTemp ∉ (receive_file env).2 ∧
      REvent.renameTemp ∉ (receive_file env).2 := by
  have hrej : (file_sanitize_filename name FT_MAX_FILENAME_LEN).1 =
      FT_ERR_INVALID_ARG := by
    unfold file_sanitize_filename
    rcases hbad with hdd | h0 | h0 | hdrv
    · rw [if_neg (by norm_num [FT_MAX_FILENAME_LEN]),
        if_pos (hasDotDot_of_dotdot_inside hdd)]
    · by_cases hdd : hasDotDot name = true
      · rw [if_neg (by norm_num [FT_MAX_FILENAME_LEN]), if_pos hdd]
      · rw [if_neg (by norm_num [FT_MAX_FILENAME_LEN]),
          if_neg (by simpa using hdd), if_pos (Or.inl h0)]
    · by_cases hdd : hasDotDot name = true
      · rw [if_neg (by norm_num [FT_MAX_FILENAME_LEN]), if_pos hdd]
      · rw [if_neg (by norm_num [FT_MAX_FILENAME_LEN]),
          if_neg (by simpa using hdd), if_pos (Or.inr (Or.inl h0))]
    · by_cases hdd : hasDotDot name = true
      · rw [if_neg (by norm_num [FT_MAX_FILENAME_LEN]), if_pos hdd]
      · rw [if_neg (by norm_num [FT_MAX_FILENAME_LEN]),
          if_neg (by simpa using hdd), if_pos (Or.inr (Or.inr hdrv))]
  refine ⟨hrej, ?_⟩
  intro env fi hfi hname
  unfold receive_file
  by_cases hh : env.handshakeOk
  · rw [hfi]
    simp only [hh, not_true_eq_false, if_false]
    rw [hname]
    rw [if_pos (by rw [hrej]; norm_num [FT_ERR_INVALID_ARG, FT_SUCCESS])]
    constructor <;> simp
  · simp only [hh, not_false_eq_true, if_true]
    constructor <;> simp

/-! ## C1: no chunk ordering check in the receiver -/

/-- C1 (amended): the receiver performs no chunk_id ordering check.
Any CHUNK_DATA message that recv_chunk accepts (valid header, type
CHUNK_DATA, size within bound, matching chunk CRC) is written at its
declared offset and acknowledged with status 0, whatever its chunk_id
and however many chunks have been accepted so far. -/
theorem C1_accepts_any_chunk_id (fi : FileInfo) (s : ChunkStep)
    (rest : List ChunkStep) (received : Nat) (ch : ChunkHeader)
    (hrec : received < fi.total_chunks)
    (hok : recv_chunk fi.chunk_size s.msg = .ok ch)
    (hw : s.writeErr = none) (ha : s.ackSendOk = true) :
    receiveChunkLoop fi (s :: rest) received =
      ((receiveChunkLoop fi rest (received + 1)).1,
        REvent.writeChunk ch.chunk_id ch.chunk_offset ch.chunk_size ::
          REvent.ackChunk ch.chunk_id 0 ::
          (receiveChunkLoop fi rest (received + 1)).2) := by
  simp [receiveChunkLoop, hok, hw, ha, hrec]

set_option maxRecDepth 1000000 in
/-- C1 counterexample: with no chunk yet accepted, a CHUNK_DATA message
with chunk_id 7 is not treated as a protocol violation: the receiver
writes it and acknowledges it with status 0, and the transfer even
completes successfully. -/
theorem C1_counterexample :
    (receive_file envC1).1 = 0 ∧
    REvent.writeChunk 7 0 3 ∈ (receive_file envC1).2 ∧
    REvent.ackChunk 7 0 ∈ (receive_file envC1).2 := by
  decide

set_option maxRecDepth 1000000 in
/-- C1 witness: the amended theorem applied to the concrete out-of-order
chunk_id 7 message arriving first. -/
theorem C1_witness :
    receiveChunkLoop fiW [stepGood] 0 =
      ((receiveChunkLoop fiW [] 1).1,
        REvent.writeChunk 7 0 3 :: REvent.ackChunk 7 0 ::
          (receiveChunkLoop fiW [] 1).2) :=
  C1_accepts_any_chunk_id fiW stepGood [] 0
    { chunk_id := 7, chunk_offset := 0, chunk_size := 3,
      chunk_crc32 := crc32_compute [1, 2, 3] }
    (by decide) (by rfl) rfl rfl

/-! ## C2: temp file deletion on failure -/

set_option maxRecDepth 1000000 in
/-- C2: failing input.  In a run in which the temp sink was opened, all
chunks were received and written, and only the final atomic rename
failed, receive_file returns failure but the temp path is not deleted:
the cleanup deletes the temp file only while the FILE handle is still
open, and the handle was closed before the rename. -/
theorem C2_temp_not_deleted_on_rename_failure :
    (receive_file envC2).1 = -1 ∧
    REvent.openTemp ∈ (receive_file envC2).2 ∧
    REvent.deleteTemp ∉ (receive_file envC2).2 := by
  decide

/-! ## C8: retry bounds -/

theorem sendChunkRetry_used_le (chunk_id size : Nat) (atts : List SAttempt) :
    ∀ rc, (sendChunkRetry chunk_id size atts rc).2.2 ≤ FT_MAX_RETRIES - rc := by
  induction atts with
  | nil => intro rc; simp [sendChunkRetry]
  | cons a rest ih =>
    intro rc
    have hih := ih (rc + 1)
    rw [sendChunkRetry]
    simp only [FT_MAX_RETRIES] at *
    cases a with
    | mk sOk aRecv =>
      cases sOk <;> rcases aRecv with _ | ack <;> dsimp only <;>
        split_ifs <;> simp_all <;> omega

theorem receiveChunkLoop_checksum_absorb (fi : FileInfo) (s : ChunkStep)
    (rest : List ChunkStep) (received : Nat) (ch : ChunkHeader)
    (hrec : received < fi.total_chunks)
    (herr : recv_chunk fi.chunk_size s.msg = .error (FT_ERR_CHECKSUM, some ch)) :
    ∀ k, receiveChunkLoop fi (List.replicate k s ++ rest) received =
      ((receiveChunkLoop fi rest received).1,
        List.replicate k (REvent.ackChunk ch.chunk_id 1) ++
          (receiveChunkLoop fi rest received).2) := by
  intro k
  induction k with
  | zero => simp
  | succ k ihk =>
    rw [List.replicate_succ, List.cons_append]
    simp [receiveChunkLoop, hrec, herr, ihk, List.replicate_succ]

/-- C8 (amended): the sender recovers per-chunk transient faults in a
retry loop bounded by FT_MAX_RETRIES = 3: no chunk is attempted more
than 3 times before send_file aborts.  The receiver, however, has no
such bound: its checksum-retry handling carries no retry counter, and
for every k, k consecutive checksum failures of the same chunk simply
produce k status 1 retry acks with the loop still running. -/
theorem C8_retry_bounds :
    (∀ (chunk_id size : Nat) (atts : List SAttempt),
      (sendChunkRetry chunk_id size atts 0).2.2 ≤ FT_MAX_RETRIES) ∧
    (∀ (fi : FileInfo) (s : ChunkStep) (rest : List ChunkStep)
        (received : Nat) (ch : ChunkHeader) (k : Nat),
      received < fi.total_chunks →
      recv_chunk fi.chunk_size s.msg = .error (FT_ERR_CHECKSUM, some ch) →
      receiveChunkLoop fi (List.replicate k s ++ rest) received =
        ((receiveChunkLoop fi rest received).1,
          List.replicate k (REvent.ackChunk ch.chunk_id 1) ++
            (receiveChunkLoop fi rest received).2)) :=
  ⟨fun chunk_id size atts => by
      simpa using sendChunkRetry_used_le chunk_id size atts 0,
   fun fi s rest received ch k h1 h2 =>
      receiveChunkLoop_checksum_absorb fi s rest received ch h1 h2 k⟩

set_option maxRecDepth 1000000 in
/-- C8 counterexample: the same chunk (chunk_id 7) fails its checksum
four times; the receiver answers four status 1 retry acks, keeps going
with no bound, accepts the fifth copy, and the session completes
successfully instead of terminating with an error after 3 attempts. -/
theorem C8_counterexample :
    (receive_file envC8).1 = 0 ∧
    (receive_file envC8).2.count (REvent.ackChunk 7 1) = 4 := by
  decide

set_option maxRecDepth 1000000 in
/-- C8 witness: both halves of the retry-bound theorem applied at
concrete inputs (a retry-retry-success attempt list, and four checksum
failures of the chunk_id 7 message). -/
theorem C8_witness :
    (sendChunkRetry 0 3 [attemptRetry, attemptRetry, attemptOk] 0).2.2 ≤
      FT_MAX_RETRIES ∧
    receiveChunkLoop fiW (List.replicate 4 stepBad ++ [stepGood]) 0 =
      ((receiveChunkLoop fiW [stepGood] 0).1,
        List.replicate 4 (REvent.ackChunk 7 1) ++
          (receiveChunkLoop fiW [stepGood] 0).2) :=
  ⟨C8_retry_bounds.1 0 3 [attemptRetry, attemptRetry, attemptOk],
   C8_retry_bounds.2 fiW stepBad [stepGood] 0
     { chunk_id := 7, chunk_offset := 0, chunk_size := 3,
       chunk_crc32 := crc32_compute [1, 2, 3] } 4 (by decide) (by rfl)⟩

/-- C6: for every file_size whose u64 ceiling computation does not
overflow (every size attainable from a signed 64-bit st_size does not),
the sender computes total_chunks as the ceiling of file_size over the
default chunk size; for file_size 0 total_chunks is 0, and the
transfer, once FILE_ACK is received, runs zero chunk iterations and
succeeds. -/
theorem C6_total_chunks_ceil :
    (∀ fs : Nat, fs + FT_DEFAULT_CHUNK_SIZE - 1 < 2 ^ 64 →
      total_chunks_c fs = fs / FT_DEFAULT_CHUNK_SIZE +
        (if fs % FT_DEFAULT_CHUNK_SIZE = 0 then 0 else 1)) ∧
    total_chunks_c 0 = 0 ∧
    (∀ env : SEnv, env.handshakeOk = true → env.fileInfoSendOk = true →
      env.fileAckResp = some MSG_FILE_ACK → env.allocOk = true →
      send_file 0 [] env = (0, [])) := by
  refine ⟨?_, by decide, ?_⟩
  · intro fs hfs
    unfold total_chunks_c
    rw [Nat.mod_eq_of_lt hfs]
    unfold FT_DEFAULT_CHUNK_SIZE at *
    by_cases h : fs % 524288 = 0 <;> simp [h] <;> omega
  · intro env h1 h2 h3 h4
    unfold send_file
    rw [h1, h3]
    have htc : total_chunks_c 0 = 0 := by decide
    simp only [MSG_ERROR, MSG_FILE_ACK, h2, h4, htc]
    norm_num
    cases env.chunks <;> simp [sendChunkLoop]

/-- C6 witness: the ceiling formula applied to the concrete size
700000, and the empty transfer run in a concrete environment. -/
theorem C6_witness :
    total_chunks_c 700000 = 700000 / FT_DEFAULT_CHUNK_SIZE +
      (if 700000 % FT_DEFAULT_CHUNK_SIZE = 0 then 0 else 1) ∧
    send_file 0 [] envC6 = (0, []) :=
  ⟨C6_total_chunks_ceil.1 700000 (by norm_num [FT_DEFAULT_CHUNK_SIZE]),
   C6_total_chunks_ceil.2.2 envC6 rfl rfl rfl rfl⟩

/-! ## C7: short reads are sent, not failed -/

theorem sendChunkRetry_first_sent (chunk_id size : Nat) (a : SAttempt)
    (atts' : List SAttempt) (hs : a.sendOk = true) :
    SEvent.sentChunk chunk_id size ∈
      (sendChunkRetry chunk_id size (a :: atts') 0).2.1 := by
  rw [sendChunkRetry]
  rw [if_pos (by norm_num [FT_MAX_RETRIES])]
  simp only [hs, not_true_eq_false, if_false]
  rcases hr : a.ackRecv with _ | ack
  · simp [FT_MAX_RETRIES]
  · by_cases hstat : ack.status ≠ 0 <;> simp [hstat, FT_MAX_RETRIES]

set_option maxRecDepth 1000000 in
/-- C7 counterexample: the declared file size is 10 bytes but the
source holds only 4 at read time; the read returns 4 bytes, the sender
does not fail with FILE_READ but transmits a 4-byte chunk, and the
transfer reports success. -/
theorem C7_counterexample :
    send_file 10 [1, 2, 3, 4] envC7 = (0, [SEvent.sentChunk 0 4]) := by
  decide

/-- C7 (amended): the sender fails with FILE_READ only when the read
itself errors (fread returning zero bytes with the error indicator
set); a successful short read is not detected: whatever byte count the
read returned is transmitted as the chunk size, even when it is less
than the expected chunk size. -/
theorem C7_short_read_sent (fs : Nat) (fileBytes : List Nat) (c : SChunk)
    (rest : List SChunk) (chunk_id total : Nat) (hlt : chunk_id < total) :
    (c.readErr = true →
      sendChunkLoop fs fileBytes total (c :: rest) chunk_id =
        (-1, [SEvent.readError])) ∧
    (∀ (a : SAttempt) (atts' : List SAttempt),
      c.readErr = false → c.attempts = a :: atts' → a.sendOk = true →
      SEvent.sentChunk chunk_id
          ((fileBytes.drop (chunk_id * FT_DEFAULT_CHUNK_SIZE)).take
            (if chunk_id * FT_DEFAULT_CHUNK_SIZE + FT_DEFAULT_CHUNK_SIZE > fs
              then fs - chunk_id * FT_DEFAULT_CHUNK_SIZE
              else FT_DEFAULT_CHUNK_SIZE)).length ∈
        (sendChunkLoop fs fileBytes total (c :: rest) chunk_id).2) := by
  constructor
  · intro hre
    simp [sendChunkLoop, hlt, file_read_chunk, hre]
  · intro a atts' hre hatts hsend
    have hmem := sendChunkRetry_first_sent chunk_id
      ((fileBytes.drop (chunk_id * FT_DEFAULT_CHUNK_SIZE)).take
        (if chunk_id * FT_DEFAULT_CHUNK_SIZE + FT_DEFAULT_CHUNK_SIZE > fs
          then fs - chunk_id * FT_DEFAULT_CHUNK_SIZE
          else FT_DEFAULT_CHUNK_SIZE)).length a atts' hsend
    simp only [sendChunkLoop, if_pos hlt, file_read_chunk, hre,
      Bool.false_eq_true, if_false, hatts]
    rcases hres : (sendChunkRetry chunk_id
      ((fileBytes.drop (chunk_id * FT_DEFAULT_CHUNK_SIZE)).take
        (if chunk_id * FT_DEFAULT_CHUNK_SIZE + FT_DEFAULT_CHUNK_SIZE > fs
          then fs - chunk_id * FT_DEFAULT_CHUNK_SIZE
          else FT_DEFAULT_CHUNK_SIZE)).length (a :: atts') 0).1 <;>
      simp_all

set_option maxRecDepth 1000000 in
/-- C7 witness: both halves of the short-read theorem applied at
concrete inputs (a failing read, and a 4-byte read of a file declared
as 10 bytes). -/
theorem C7_witness :
    sendChunkLoop 10 [1, 2, 3, 4] 1 [cRead] 0 = (-1, [SEvent.readError]) ∧
    SEvent.sentChunk 0 (([1, 2, 3, 4].drop (0 * FT_DEFAULT_CHUNK_SIZE)).take
        (if 0 * FT_DEFAULT_CHUNK_SIZE + FT_DEFAULT_CHUNK_SIZE > 10
          then 10 - 0 * FT_DEFAULT_CHUNK_SIZE
          else FT_DEFAULT_CHUNK_SIZE)).length ∈
      (sendChunkLoop 10 [1, 2, 3, 4] 1
        [{ readErr := false, attempts := [attemptOk] }] 0).2 :=
  ⟨(C7_short_read_sent 10 [1, 2, 3, 4] cRead [] 0 1 (by norm_num)).1 rfl,
   (C7_short_read_sent 10 [1, 2, 3, 4]
      { readErr := false, attempts := [attemptOk] } [] 0 1 (by norm_num)).2
     attemptOk [] rfl rfl rfl⟩

set_option maxRecDepth 1000000 in
/-- C5 witness: the sanitization theorem applied to the concrete
filename ../etc/passwd and a concrete receiver run. -/
theorem C5_witness :
    (file_sanitize_filename nameTraversal FT_MAX_FILENAME_LEN).1 =
      FT_ERR_INVALID_ARG ∧
    REvent.openTemp ∉ (receive_file envC5).2 ∧
    REvent.renameTemp ∉ (receive_file envC5).2 :=
  ⟨(C5_sanitize_rejects nameTraversal
      (Or.inl ⟨[], [47, 101, 116, 99, 47, 112, 97, 115, 115, 119, 100], rfl⟩)).1,
   (C5_sanitize_rejects nameTraversal
      (Or.inl ⟨[], [47, 101, 116, 99, 47, 112, 97, 115, 115, 119, 100], rfl⟩)).2
     envC5 fiBadName rfl rfl⟩

